import Mathlib

/-!
Verification of `src/volctl/lib/pa_wrapper.py` (volctl's PulseAudio
manager) against its natural-language specification.

The Python module is shallowly embedded: Python dicts (which preserve
insertion order) become association lists with unique keys; Python
exceptions become explicit `PyErr` values; the deferred
`GObject.idle_add` calls become explicit `Notification` values returned
by each handler; the float arithmetic of the peak callback is modelled
over `ℚ` (every concrete value used in the theorems below is a dyadic
rational, represented exactly by an IEEE double, so the `ℚ` model agrees
with Python floats on them).
-/

namespace Volctl

/-- Python exceptions that the embedded code can raise. -/
inductive PyErr where
  | keyError
  | attributeError
  | indexError
  deriving DecidableEq, Repr

/-! ### Python dict model

A Python dict is an insertion-ordered map with unique keys:
`d[k] = v` overwrites in place if `k` is present and appends otherwise;
`del d[k]` removes the entry; `d[k]` on a missing key raises `KeyError`.
-/

/-- Lookup in an association list, mirroring Python `d.get(k)` /
`k in d`. -/
def dictGet {α β : Type} [DecidableEq α] (k : α) : List (α × β) → Option β
  | [] => none
  | (k', v) :: rest => if k = k' then some v else dictGet k rest

/-- `d[k] = v`: replace in place when the key is present, append
otherwise. -/
def dictSet {α β : Type} [DecidableEq α] (k : α) (v : β) : List (α × β) → List (α × β)
  | [] => [(k, v)]
  | (k', v') :: rest => if k = k' then (k, v) :: rest else (k', v') :: dictSet k v rest

/-- `del d[k]` for a present key (keys are unique, so deleting the first
occurrence is exact). -/
def dictDel {α β : Type} [DecidableEq α] (k : α) : List (α × β) → List (α × β)
  | [] => []
  | (k', v') :: rest => if k = k' then rest else (k', v') :: dictDel k rest

/-! ### Server-side structs

Modelled from the spec: the auto-generated ctypes binding layer
(`volctl/lib/pulseaudio.py`) is not among the sources, so the raw
`pa_sink_info` / `pa_sink_input_info` / `pa_client_info` structs are
modelled at domain level per the spec's black-box contract ("by-index
and list enumeration ... each returning a property bag (flat string
key→value mapping) alongside typed fields"): text fields are `String`,
integer fields are `Nat`, and the `pa_cvolume` member is a channel
count plus the per-channel value array.
-/

/-- The `pa_cvolume` struct carried inside sink / sink-input info
structs (`volume.channels`, `volume.values`). The C value array has a
fixed 32 slots initialised to 0, so reading `values[0]` never fails;
`headD 0` reproduces that. -/
structure PaCVolumeStruct where
  channels : Nat
  values : List Nat
  deriving DecidableEq, Repr

/-- Fields of `pa_sink_info` used by `Sink.update`. -/
structure PaSinkStruct where
  index : Nat
  name : String
  description : String
  volume : PaCVolumeStruct
  mute : Nat
  deriving DecidableEq, Repr

/-- Fields of `pa_sink_input_info` used by `_on_new_pa_sink_input` and
`SinkInput.update`. -/
structure PaSinkInputStruct where
  index : Nat
  name : String
  driver : String
  sink : Nat
  client : Nat
  volume : PaCVolumeStruct
  mute : Nat
  deriving DecidableEq, Repr

/-- Fields of `pa_client_info` used by `Client.update`. -/
structure PaClientStruct where
  index : Nat
  name : String
  deriving DecidableEq, Repr

/-! ### Deferred UI notifications

Each `GObject.idle_add(self.pa_mgr.volctl.<cb>, ...)` call in the source
defers a presentation callback; the embedding returns them as values. -/

/-- A deferred call posted with `GObject.idle_add`. -/
inductive Notification where
  | slider_count_changed
  | update_values (volume : Nat) (mute : Bool)
  | update_sink_scale (idx : Nat) (volume : Nat) (mute : Bool)
  | update_sink_input_scale (idx : Nat) (volume : Nat) (mute : Bool)
  deriving DecidableEq, Repr

/-! ### Peak computation (`AbstractMonitorableSink._on_stream_read`) -/

/-- The per-sample expression `data[i] - 128`: Python promotes the
unsigned byte to a signed integer deviation. -/
def sampleDev (b : Nat) : ℤ :=
  (b : ℤ) - 128

/-- The value computed at pa_wrapper.py:512:
`sum([data[i] - 128 for i in range(length)]) / length / 128.0`.
Samples are unsigned bytes; the sum of signed deviations is an integer,
divided by the block length and then by 128.0. No absolute value is
taken. -/
def peak_val (data : List Nat) : ℚ :=
  (((data.map sampleDev).sum : ℤ) : ℚ) / (data.length : ℚ) / 128

/-! ### `cvolume_from_volume` (pa_wrapper.py:82-90)

The Python function allocates a fixed `pa_volume_t * 32` array (all
slots 0) and runs `for i in range(0, channels): cvolume.values[i] = volume`.
A ctypes array write checks bounds, so an index `≥ 32` raises
`IndexError`. -/

/-- The domain value dispatched as a `pa_cvolume`: a declared channel
count plus the 32-slot value array. -/
structure PaCVolume where
  channels : Nat
  values : List Nat
  deriving DecidableEq, Repr

/-- The loop `for i in range(0, channels): values[i] = volume`,
starting at index `i` with `n` iterations left; a write out of the
array's bounds raises `IndexError` as ctypes does. -/
def write_from (volume : Nat) : List Nat → Nat → Nat → Except PyErr (List Nat)
  | values, _, 0 => Except.ok values
  | values, i, n + 1 =>
      if i < values.length then write_from volume (values.set i volume) (i + 1) n
      else Except.error PyErr.indexError

/-- `cvolume_from_volume(volume, channels)`: build a `pa_cvolume`
declaring `channels` channels whose 32-slot array holds `volume` in its
first `channels` slots. -/
def cvolume_from_volume (volume channels : Nat) : Except PyErr PaCVolume :=
  (write_from volume (List.replicate 32 0) 0 channels).map fun vals =>
    { channels := channels, values := vals }

/-! ### Entities (`Client`, `Sink`, `SinkInput`) -/

/-- `Client.__init__` plus the fields set by `Client.update` (name from
the struct, icon from the props with the generic
`multimedia-volume-control` default). -/
structure Client where
  idx : Nat
  name : String
  icon_name : Option String
  deriving DecidableEq, Repr

/-- `Client.update(struct, props)` (pa_wrapper.py:643-648). -/
def Client.update (c : Client) (st : PaClientStruct) (props : List (String × String)) : Client :=
  { c with
    name := st.name
    icon_name := some ((dictGet "application.icon_name" props).getD "multimedia-volume-control") }

/-- A `Sink` entity: the fields assigned by
`AbstractMonitorableSink.__init__` and (re)assigned by `Sink.update`. -/
structure Sink where
  idx : Nat
  volume : Nat
  channels : Nat
  mute : Bool
  icon_name : Option String
  name : String
  sink_name : String
  deriving DecidableEq, Repr

/-- `PulseAudioManager.is_main_sink(sink_name)`: Python
`sink_name == self._default_sink`; comparison against a `None` marker is
`False`. -/
def is_main_sink (defaultSink : Option String) (nm : String) : Bool :=
  some nm == defaultSink

/-- `Sink.update(struct, props)` (pa_wrapper.py:527-544). Assigns
display name (`description`), internal name, the `audio-card` icon,
first-channel volume, channel count and mute, then defers
`update_values` when this sink's internal name equals the default-sink
marker, and unconditionally defers `update_sink_scale` for its index. -/
def Sink.update (defaultSink : Option String) (s : Sink) (st : PaSinkStruct) :
    Sink × List Notification :=
  let volume := st.volume.values.headD 0
  let mute := st.mute != 0
  let s' : Sink :=
    { s with
      name := st.description
      sink_name := st.name
      icon_name := some "audio-card"
      volume := volume
      channels := st.volume.channels
      mute := mute }
  (s',
    (if is_main_sink defaultSink st.name then [Notification.update_values volume mute] else [])
      ++ [Notification.update_sink_scale s.idx volume mute])

/-- `Sink.__init__` (pa_wrapper.py:523-525): the base-class defaults
followed by the first `update`. -/
def Sink.new (defaultSink : Option String) (idx : Nat) (st : PaSinkStruct) :
    Sink × List Notification :=
  Sink.update defaultSink
    { idx := idx, volume := 0, channels := 0, mute := false,
      icon_name := none, name := "", sink_name := "" } st

/-- A `SinkInput` entity: the fields assigned by
`AbstractMonitorableSink.__init__` / `SinkInput.__init__` and
(re)assigned by `SinkInput.update`. `_icon_name` is kept as `icon_attr`
(it may hold Python `None`). -/
structure SinkInput where
  idx : Nat
  volume : Nat
  channels : Nat
  mute : Bool
  sink_idx : Nat
  client : Nat
  app_name : Option String
  media_name : Option String
  icon_attr : Option String
  deriving DecidableEq, Repr

/-- `SinkInput.update(struct, props)` (pa_wrapper.py:570-591): volume /
channels / mute from the struct, owning sink and client indices,
`application.name`, `media.name` and the icon properties from the
props, then a deferred `update_sink_input_scale`. -/
def SinkInput.update (si : SinkInput) (st : PaSinkInputStruct)
    (props : List (String × String)) : SinkInput × List Notification :=
  let volume := st.volume.values.headD 0
  let mute := st.mute != 0
  let icon :=
    match dictGet "media.icon_name" props with
    | some v => some v
    | none => dictGet "application.icon_name" props
  let si' : SinkInput :=
    { si with
      volume := volume
      channels := st.volume.channels
      mute := mute
      sink_idx := st.sink
      client := st.client
      app_name := dictGet "application.name" props
      media_name := dictGet "media.name" props
      icon_attr := icon }
  (si', [Notification.update_sink_input_scale si.idx volume mute])

/-- `SinkInput.__init__` (pa_wrapper.py:565-568): base-class defaults,
`_sink_idx` from the struct, then the first `update`. -/
def SinkInput.new (idx : Nat) (st : PaSinkInputStruct)
    (props : List (String × String)) : SinkInput × List Notification :=
  SinkInput.update
    { idx := idx, volume := 0, channels := 0, mute := false,
      sink_idx := st.sink, client := 0, app_name := none,
      media_name := none, icon_attr := none } st props

/-- The Python string formatting `"{}".format(x)` applied to an
optional string: `None` renders as the literal text `None`. -/
def pyFormatOpt : Option String → String
  | none => "None"
  | some s => s

/-- The `SinkInput.name` property (pa_wrapper.py:615-624). The source
wraps `"{}: {}".format(self.app_name, self.media_name)` in
`try/except AttributeError` with fallbacks to `self.app_name` and to
`self._get_client().name`; those `except` branches are unreachable,
because `update` (invoked by `__init__`) always binds `app_name` and
`media_name` (possibly to `None`, which `format` renders as the text
`None`) and `str.format` raises no `AttributeError`. The embedding is
therefore the `try` body. -/
def SinkInput.display_name (si : SinkInput) : String :=
  pyFormatOpt si.app_name ++ ": " ++ pyFormatOpt si.media_name

/-- The `SinkInput.icon_name` property (pa_wrapper.py:607-613). The
source wraps `return self._icon_name` in `try/except AttributeError`
falling back to `self._get_client().icon_name`; the `except` branch is
unreachable because `__init__` always binds `_icon_name`. The embedding
is the `try` body. -/
def SinkInput.resolved_icon (si : SinkInput) : Option String :=
  si.icon_attr

/-! ### `PulseAudioManager` -/

/-- The mutable state of `PulseAudioManager` (pa_wrapper.py:302-308):
the three entity dicts, the secondary name-keyed sink dict and the
default-sink marker. -/
structure PulseAudioManager where
  pa_clients : List (Nat × Client)
  pa_sinks : List (Nat × Sink)
  pa_sinks_by_name : List (String × Sink)
  default_sink : Option String
  pa_sink_inputs : List (Nat × SinkInput)
  deriving DecidableEq, Repr

/-- The state right after `PulseAudioManager.__init__`: all maps empty,
no default-sink marker. -/
def emptyMgr : PulseAudioManager :=
  { pa_clients := [], pa_sinks := [], pa_sinks_by_name := [],
    default_sink := none, pa_sink_inputs := [] }

/-- `PulseAudioManager._on_default_sink(name)` (pa_wrapper.py:446-447). -/
def on_default_sink (m : PulseAudioManager) (nm : String) : PulseAudioManager :=
  { m with default_sink := some nm }

/-- `PulseAudioManager.get_first_sink()` (pa_wrapper.py:349-355):
`list(self._pa_sinks.keys())[0]` under `try/except IndexError`, then a
lookup of that first key (which, keys being unique, is the first
entry's value). -/
def get_first_sink (m : PulseAudioManager) : Option Sink :=
  match m.pa_sinks with
  | [] => none
  | (k, _) :: _ => dictGet k m.pa_sinks

/-- `PulseAudioManager.get_main_sink()` (pa_wrapper.py:357-362): with no
marker, `get_first_sink()`; with a marker, an unguarded dict lookup in
`_pa_sinks_by_name` that raises `KeyError` when the name is absent. -/
def get_main_sink (m : PulseAudioManager) : Except PyErr (Option Sink) :=
  match m.default_sink with
  | none => Except.ok (get_first_sink m)
  | some nm =>
      match dictGet nm m.pa_sinks_by_name with
      | some s => Except.ok (some s)
      | none => Except.error PyErr.keyError

/-- `PulseAudioManager.get_pa_client(client)` (pa_wrapper.py:339-341):
an unguarded dict lookup, raising `KeyError` for a removed client. -/
def get_pa_client (m : PulseAudioManager) (client : Nat) : Except PyErr Client :=
  match dictGet client m.pa_clients with
  | some c => Except.ok c
  | none => Except.error PyErr.keyError

/-- `PulseAudioManager._on_new_pa_client` (pa_wrapper.py:397-400). -/
def on_new_pa_client (m : PulseAudioManager) (index : Nat) (st : PaClientStruct)
    (props : List (String × String)) : PulseAudioManager :=
  let c :=
    match dictGet index m.pa_clients with
    | none => { idx := index, name := "", icon_name := none : Client }
    | some c => c
  { m with pa_clients := dictSet index (c.update st props) m.pa_clients }

/-- `PulseAudioManager._on_remove_pa_client` (pa_wrapper.py:402-404):
guarded by `if index in self._pa_clients`. -/
def on_remove_pa_client (m : PulseAudioManager) (index : Nat) :
    PulseAudioManager × List Notification :=
  if (dictGet index m.pa_clients).isSome then
    ({ m with pa_clients := dictDel index m.pa_clients }, [])
  else (m, [])

/-- `PulseAudioManager._on_new_pa_sink` (pa_wrapper.py:406-419): for a
fresh index, construct the `Sink`, insert it into both the index-keyed
and the name-keyed dicts and defer `slider_count_changed`; for a known
index, update the stored sink in place, delete the old name key and
insert the new one. -/
def on_new_pa_sink (m : PulseAudioManager) (index : Nat) (st : PaSinkStruct) :
    PulseAudioManager × List Notification :=
  match dictGet index m.pa_sinks with
  | none =>
      let (sink, notes) := Sink.new m.default_sink index st
      ({ m with
          pa_sinks := dictSet index sink m.pa_sinks
          pa_sinks_by_name := dictSet sink.sink_name sink m.pa_sinks_by_name },
        notes ++ [Notification.slider_count_changed])
  | some sink =>
      let old_name := sink.sink_name
      let (sink', notes) := Sink.update m.default_sink sink st
      ({ m with
          pa_sinks := dictSet index sink' m.pa_sinks
          pa_sinks_by_name :=
            dictSet sink'.sink_name sink' (dictDel old_name m.pa_sinks_by_name) },
        notes)

/-- `PulseAudioManager._on_remove_pa_sink` (pa_wrapper.py:421-424).
`self._pa_sinks.pop(index)` has no default, so an unknown index raises
`KeyError` before any mutation. For a known index the pop succeeds, and
the next line reads `self._pa_sink_index_by_name` — an attribute that is
never assigned anywhere in the module (the name-keyed dict is
`_pa_sinks_by_name`) — so it raises `AttributeError`, leaving the popped
index-keyed dict but an untouched name-keyed dict; no notification is
reached. The result carries the raised error alongside the state the
live manager object retains after the exception propagates. -/
def on_remove_pa_sink (m : PulseAudioManager) (index : Nat) :
    Option PyErr × PulseAudioManager × List Notification :=
  match dictGet index m.pa_sinks with
  | none => (some PyErr.keyError, m, [])
  | some _ =>
      (some PyErr.attributeError, { m with pa_sinks := dictDel index m.pa_sinks }, [])

/-- `PulseAudioManager._on_new_pa_sink_input` (pa_wrapper.py:426-439):
drop the synthetic `audio-volume-change` feedback stream and any stream
whose driver is outside the `("protocol-native.c", "PipeWire")`
allow-list; otherwise construct or update the `SinkInput`. -/
def on_new_pa_sink_input (m : PulseAudioManager) (index : Nat)
    (st : PaSinkInputStruct) (props : List (String × String)) :
    PulseAudioManager × List Notification :=
  if st.name = "audio-volume-change" then (m, [])
  else if st.driver ≠ "protocol-native.c" ∧ st.driver ≠ "PipeWire" then (m, [])
  else
    match dictGet index m.pa_sink_inputs with
    | none =>
        let (si, notes) := SinkInput.new index st props
        ({ m with pa_sink_inputs := dictSet index si m.pa_sink_inputs },
          notes ++ [Notification.slider_count_changed])
    | some si =>
        let (si', notes) := si.update st props
        ({ m with pa_sink_inputs := dictSet index si' m.pa_sink_inputs }, notes)

/-- `PulseAudioManager._on_remove_pa_sink_input` (pa_wrapper.py:441-444):
guarded by `if index in self._pa_sink_inputs`. -/
def on_remove_pa_sink_input (m : PulseAudioManager) (index : Nat) :
    PulseAudioManager × List Notification :=
  if (dictGet index m.pa_sink_inputs).isSome then
    ({ m with pa_sink_inputs := dictDel index m.pa_sink_inputs },
      [Notification.slider_count_changed])
  else (m, [])

/-- `Sink.set_volume(volume)` (pa_wrapper.py:546-550): optimistically
cache the new volume, then build the cvolume from the entity's current
channel count and dispatch it by index. -/
def Sink.set_volume (s : Sink) (volume : Nat) :
    Sink × Except PyErr (Nat × PaCVolume) :=
  ({ s with volume := volume },
    (cvolume_from_volume volume s.channels).map fun c => (s.idx, c))

/-! ### Helper lemmas -/

/-- A capture block alternating `[0, 255]`, `n` pairs long. -/
def altBlock : Nat → List Nat
  | 0 => []
  | n + 1 => 0 :: 255 :: altBlock n

theorem altBlock_length (n : Nat) : (altBlock n).length = 2 * n := by
  induction n with
  | zero => rfl
  | succ k ih => simp [altBlock, ih]; omega

theorem altBlock_dev_sum (n : Nat) :
    ((altBlock n).map sampleDev).sum = -(n : ℤ) := by
  induction n with
  | zero => simp [altBlock]
  | succ k ih => simp [altBlock, sampleDev, ih]; ring

theorem peak_val_replicate (n c : Nat) (h : 1 ≤ n) :
    peak_val (List.replicate n c) = ((c : ℚ) - 128) / 128 := by
  have hn : (n : ℚ) ≠ 0 := Nat.cast_ne_zero.mpr (by omega)
  unfold peak_val
  rw [List.map_replicate, List.sum_replicate, List.length_replicate, nsmul_eq_mul]
  unfold sampleDev
  push_cast
  rw [mul_div_cancel_left₀ _ hn]

theorem peak_val_altBlock (n : Nat) (h : 1 ≤ n) :
    peak_val (altBlock n) = -(1 / 256) := by
  have hn : (n : ℚ) ≠ 0 := Nat.cast_ne_zero.mpr (by omega)
  unfold peak_val
  rw [altBlock_dev_sum, altBlock_length]
  push_cast
  field_simp
  ring

/-! ### Claim theorems -/

/-- C1 counterexample: the peak read callback does not perform
absolute-deviation averaging — on the one-byte block `[255]` it yields
`127/128`, not `1.0`; on `[0]` it yields `-1.0`, not `1.0`; and on the
alternating block `[0, 255]` it yields `-1/256`, not `1.0`. -/
theorem C1_counterexample :
    peak_val [255] ≠ 1 ∧ peak_val [0] ≠ 1 ∧ peak_val [0, 255] ≠ 1 ∧
      peak_val [255] = 127 / 128 ∧ peak_val [0] = -1 ∧ peak_val [0, 255] = -(1 / 256) := by
  refine ⟨?_, ?_, ?_, ?_, ?_, ?_⟩ <;> norm_num [peak_val, sampleDev]

/-- C1 (amended): for every capture block of length `≥ 1` the peak read
callback averages the signed deviations `sample - 128` (no absolute
value) and divides by `128`; a block of all `128`s yields `0`, a block
of all `255`s yields `127/128`, a block of all `0`s yields `-1`, and a
block alternating `[0, 255]` yields `-1/256`. -/
theorem C1_amended_thm (n : Nat) (h : 1 ≤ n) :
    peak_val (List.replicate n 128) = 0 ∧
      peak_val (List.replicate n 255) = 127 / 128 ∧
      peak_val (List.replicate n 0) = -1 ∧
      peak_val (altBlock n) = -(1 / 256) := by
  refine ⟨?_, ?_, ?_, peak_val_altBlock n h⟩ <;> rw [peak_val_replicate _ _ h] <;> norm_num

/-- C1 witness: the amended claim evaluated on blocks of length 2 (one
alternating pair). -/
theorem C1_amended_witness :
    1 ≤ 2 ∧
      (peak_val (List.replicate 2 128) = 0 ∧
        peak_val (List.replicate 2 255) = 127 / 128 ∧
        peak_val (List.replicate 2 0) = -1 ∧
        peak_val (altBlock 2) = -(1 / 256)) :=
  ⟨by norm_num, C1_amended_thm 2 (by norm_num)⟩

/-- The name-keyed sink map is in sync with the index-keyed one: every
name entry is backed by a live sink carrying that name, and every live
sink is found under its current name. -/
def sinks_name_map_consistent (m : PulseAudioManager) : Prop :=
  (∀ p ∈ m.pa_sinks_by_name, ∃ q ∈ m.pa_sinks, q.2.sink_name = p.1 ∧ q.2 = p.2) ∧
    ∀ q ∈ m.pa_sinks, dictGet q.2.sink_name m.pa_sinks_by_name = some q.2

instance (m : PulseAudioManager) : Decidable (sinks_name_map_consistent m) := by
  unfold sinks_name_map_consistent
  infer_instance

/-- A concrete sink-info struct used in the scenario theorems. -/
def sinkStructA : PaSinkStruct :=
  { index := 1, name := "alsa_output.a", description := "Sink A",
    volume := { channels := 2, values := [50, 50] }, mute := 0 }

/-- C2: the code violates the name-map invariant on removal — after
inserting sink index 1 (internal name `alsa_output.a`) and then
removing index 1, `_on_remove_pa_sink` raises `AttributeError` (it
reads `self._pa_sink_index_by_name`, an attribute never assigned in the
module) after popping the index-keyed entry, so the name-keyed map
keeps a stale `alsa_output.a` entry for a dead device. -/
theorem C2_code_bug_thm :
    (on_remove_pa_sink (on_new_pa_sink emptyMgr 1 sinkStructA).1 1).1 =
        some PyErr.attributeError ∧
      ((on_remove_pa_sink (on_new_pa_sink emptyMgr 1 sinkStructA).1 1).2.1).pa_sinks = [] ∧
      (dictGet "alsa_output.a"
          ((on_remove_pa_sink (on_new_pa_sink emptyMgr 1 sinkStructA).1 1).2.1).pa_sinks_by_name).isSome =
        true ∧
      ¬sinks_name_map_consistent
          ((on_remove_pa_sink (on_new_pa_sink emptyMgr 1 sinkStructA).1 1).2.1) := by
  refine ⟨rfl, rfl, rfl, ?_⟩
  decide

/-- C3: removal of an unknown index is a guarded no-op for clients and
sink inputs, but `_on_remove_pa_sink` calls `self._pa_sinks.pop(index)`
without a default, so an unknown sink index raises `KeyError` instead
of being a no-op. -/
theorem C3_code_bug_thm :
    (on_remove_pa_sink emptyMgr 42).1 = some PyErr.keyError ∧
      on_remove_pa_client emptyMgr 42 = (emptyMgr, []) ∧
      on_remove_pa_sink_input emptyMgr 42 = (emptyMgr, []) := by
  refine ⟨rfl, ?_, ?_⟩ <;> decide

/-- C4: stream admission is a pure function of the incoming
`(driver, name)` pair — a sink-input upsert whose name is the synthetic
`audio-volume-change` feedback sound, or whose driver is outside the
`("protocol-native.c", "PipeWire")` allow-list, creates/updates no
`SinkInput` and fires no notification, leaving the manager unchanged
(so repeated arrivals of the same input are equally inert). -/
theorem C4_thm (m : PulseAudioManager) (index : Nat) (st : PaSinkInputStruct)
    (props : List (String × String))
    (h : st.name = "audio-volume-change" ∨
      (st.driver ≠ "protocol-native.c" ∧ st.driver ≠ "PipeWire")) :
    on_new_pa_sink_input m index st props = (m, []) := by
  unfold on_new_pa_sink_input
  rcases h with h | h
  · simp [h]
  · by_cases hn : st.name = "audio-volume-change"
    · simp [hn]
    · simp [hn, h.1, h.2]

/-- The synthetic feedback-sound stream used in the C4 witness. -/
def fbStruct : PaSinkInputStruct :=
  { index := 7, name := "audio-volume-change", driver := "protocol-native.c",
    sink := 0, client := 3, volume := { channels := 1, values := [10] }, mute := 0 }

/-- A loopback-module stream (driver outside the allow-list) used in
the C4 witness. -/
def loopbackStruct : PaSinkInputStruct :=
  { index := 8, name := "Loopback", driver := "module-loopback.c",
    sink := 0, client := 4, volume := { channels := 2, values := [20, 20] }, mute := 0 }

/-- C4 witness: the feedback-sound stream and a loopback stream are
both dropped without touching the state. -/
theorem C4_witness :
    on_new_pa_sink_input emptyMgr 7 fbStruct [] = (emptyMgr, []) ∧
      on_new_pa_sink_input emptyMgr 8 loopbackStruct [] = (emptyMgr, []) :=
  ⟨C4_thm emptyMgr 7 fbStruct [] (Or.inl rfl),
    C4_thm emptyMgr 8 loopbackStruct [] (Or.inr ⟨by decide, by decide⟩)⟩

/-- C5: main-device resolution — with no default marker,
`get_main_sink` yields the first-inserted sink (the head of the
insertion-ordered sink dict); with a marker naming a live sink, it
yields that sink; with a marker naming no live sink, it raises
(`KeyError`) instead of silently no-opping. -/
theorem C5_thm (m : PulseAudioManager) :
    (m.default_sink = none →
        get_main_sink m = Except.ok (m.pa_sinks.head?.map Prod.snd)) ∧
      (∀ nm s, m.default_sink = some nm → dictGet nm m.pa_sinks_by_name = some s →
        get_main_sink m = Except.ok (some s)) ∧
      ∀ nm, m.default_sink = some nm → dictGet nm m.pa_sinks_by_name = none →
        get_main_sink m = Except.error PyErr.keyError := by
  refine ⟨?_, ?_, ?_⟩
  · intro h
    rcases hps : m.pa_sinks with _ | ⟨⟨k, v⟩, rest⟩ <;>
      simp [get_main_sink, get_first_sink, h, hps, dictGet]
  · intro nm s h1 h2
    simp [get_main_sink, h1, h2]
  · intro nm h1 h2
    simp [get_main_sink, h1, h2]

/-- Sink-info structs for the `[5, 2, 9]` insertion scenario. -/
def sinkStruct5 : PaSinkStruct :=
  { index := 5, name := "sink.five", description := "Five",
    volume := { channels := 2, values := [40, 40] }, mute := 0 }

/-- Second inserted sink of the `[5, 2, 9]` scenario. -/
def sinkStruct2 : PaSinkStruct :=
  { index := 2, name := "sink.two", description := "Two",
    volume := { channels := 2, values := [30, 30] }, mute := 0 }

/-- Third inserted sink of the `[5, 2, 9]` scenario. -/
def sinkStruct9 : PaSinkStruct :=
  { index := 9, name := "sink.nine", description := "Nine",
    volume := { channels := 2, values := [60, 60] }, mute := 0 }

/-- The manager state after inserting sinks in the order `[5, 2, 9]`
with no default marker. -/
def m529 : PulseAudioManager :=
  (on_new_pa_sink
    (on_new_pa_sink (on_new_pa_sink emptyMgr 5 sinkStruct5).1 2 sinkStruct2).1
    9 sinkStruct9).1

/-- The `Sink` entity stored for index 9 in the `[5, 2, 9]` scenario. -/
def sink9val : Sink :=
  (Sink.new none 9 sinkStruct9).1

/-- C5 witness: in the `[5, 2, 9]` scenario the main sink resolves to
the first-inserted sink (index 5); after marking `sink.nine` it
resolves to the sink with index 9; marking a name with no live sink
raises `KeyError`. -/
theorem C5_witness :
    (get_main_sink m529 = Except.ok (m529.pa_sinks.head?.map Prod.snd) ∧
        (m529.pa_sinks.head?.map fun p => p.2.idx) = some 5) ∧
      (get_main_sink (on_default_sink m529 "sink.nine") = Except.ok (some sink9val) ∧
        sink9val.idx = 9) ∧
      get_main_sink (on_default_sink m529 "sink.missing") = Except.error PyErr.keyError :=
  ⟨⟨(C5_thm m529).1 rfl, by decide⟩,
    ⟨(C5_thm (on_default_sink m529 "sink.nine")).2.1 "sink.nine" sink9val rfl (by decide),
      rfl⟩,
    (C5_thm (on_default_sink m529 "sink.missing")).2.2 "sink.missing" rfl (by decide)⟩

/-- C10: with no default marker set and an empty device map,
`get_main_sink` (via `get_first_sink`) absorbs the empty-graph edge
case and returns Python `None` without raising. -/
theorem C10_thm (m : PulseAudioManager) (h1 : m.default_sink = none)
    (h2 : m.pa_sinks = []) : get_main_sink m = Except.ok none := by
  unfold get_main_sink get_first_sink
  rw [h1, h2]

/-- C10 witness: the freshly initialised manager resolves its main sink
to `None`. -/
theorem C10_witness :
    emptyMgr.default_sink = none ∧ emptyMgr.pa_sinks = [] ∧
      get_main_sink emptyMgr = Except.ok none :=
  ⟨rfl, rfl, C10_thm emptyMgr rfl rfl⟩

theorem dictGet_mem {α β : Type} [DecidableEq α] {k : α} {v : β} :
    ∀ {l : List (α × β)}, dictGet k l = some v → (k, v) ∈ l := by
  intro l
  induction l with
  | nil => intro h; simp [dictGet] at h
  | cons p rest ih =>
      rcases p with ⟨k', v'⟩
      simp only [dictGet]
      split
      · rename_i hk
        intro h
        cases h
        subst hk
        exact List.mem_cons_self _ _
      · intro h
        exact List.mem_cons_of_mem _ (ih h)

theorem is_main_sink_iff (d : Option String) (nm : String) :
    is_main_sink d nm = true ↔ d = some nm := by
  unfold is_main_sink
  rw [beq_iff_eq]
  exact eq_comm

/-- Every sink stored in the index-keyed dict records its own key as
its index (established by the handlers: a sink is created with the
notification's index and updates never change it). -/
def sinks_idx_ok (m : PulseAudioManager) : Prop :=
  ∀ p ∈ m.pa_sinks, (p.2 : Sink).idx = p.1

instance (m : PulseAudioManager) : Decidable (sinks_idx_ok m) := by
  unfold sinks_idx_ok
  infer_instance

/-- C6: a device upsert defers an `update_values` ("main values
changed") notification carrying the new volume and mute exactly when
the default-sink marker equals the struct's internal name at upsert
time, and it always defers an `update_sink_scale` ("device scale
changed") notification for the device's index. -/
theorem C6_thm (m : PulseAudioManager) (index : Nat) (st : PaSinkStruct)
    (hidx : sinks_idx_ok m) :
    (Notification.update_values (st.volume.values.headD 0) (st.mute != 0) ∈
        (on_new_pa_sink m index st).2 ↔ m.default_sink = some st.name) ∧
      Notification.update_sink_scale index (st.volume.values.headD 0) (st.mute != 0) ∈
        (on_new_pa_sink m index st).2 := by
  have hmain := is_main_sink_iff m.default_sink st.name
  unfold on_new_pa_sink
  cases hd : dictGet index m.pa_sinks with
  | none =>
      cases hq : is_main_sink m.default_sink st.name <;>
        simp_all [Sink.new, Sink.update]
  | some s =>
      have hs : s.idx = index := hidx (index, s) (dictGet_mem hd)
      cases hq : is_main_sink m.default_sink st.name <;>
        simp_all [Sink.update]

/-- Device 3's first upsert (volume 50, mute off) in the C6 scenario. -/
def sink3structA : PaSinkStruct :=
  { index := 3, name := "sink.three", description := "Three",
    volume := { channels := 2, values := [50, 50] }, mute := 0 }

/-- Device 3's second upsert (volume 70, mute off) in the C6 scenario. -/
def sink3structB : PaSinkStruct :=
  { index := 3, name := "sink.three", description := "Three",
    volume := { channels := 2, values := [70, 70] }, mute := 0 }

/-- The C6 scenario state: device 3 upserted with volume 50, then the
default marker set to its internal name. -/
def scen3m2 : PulseAudioManager :=
  on_default_sink (on_new_pa_sink emptyMgr 3 sink3structA).1 "sink.three"

/-- C6 witness: the first upsert of device 3 (marker unset) fires no
`update_values`, while the second upsert after the marker is set fires
`update_values 70 false` plus the unconditional `update_sink_scale`. -/
theorem C6_witness :
    Notification.update_values 50 false ∉ (on_new_pa_sink emptyMgr 3 sink3structA).2 ∧
      Notification.update_values 70 false ∈ (on_new_pa_sink scen3m2 3 sink3structB).2 ∧
      Notification.update_sink_scale 3 70 false ∈ (on_new_pa_sink scen3m2 3 sink3structB).2 := by
  have h1 := C6_thm emptyMgr 3 sink3structA (by decide)
  have h2 := C6_thm scen3m2 3 sink3structB (by decide)
  refine ⟨fun hmem => ?_, h2.1.mpr rfl, h2.2⟩
  exact Option.noConfusion (h1.1.mp hmem)

theorem write_from_ok (volume : Nat) :
    ∀ (n : Nat) (values : List Nat) (i : Nat), i + n ≤ values.length →
      ∃ res, write_from volume values i n = Except.ok res ∧
        res.length = values.length ∧
        (∀ j, j < i ∨ i + n ≤ j → res[j]? = values[j]?) ∧
        ∀ j, i ≤ j → j < i + n → res[j]? = some volume := by
  intro n
  induction n with
  | zero =>
      intro values i h
      exact ⟨values, rfl, rfl, fun j _ => rfl, fun j h1 h2 => absurd h2 (by omega)⟩
  | succ k ih =>
      intro values i h
      have hi : i < values.length := by omega
      obtain ⟨res, hres, hlen, hout, hin⟩ :=
        ih (values.set i volume) (i + 1) (by rw [List.length_set]; omega)
      refine ⟨res, ?_, ?_, ?_, ?_⟩
      · simp only [write_from, if_pos hi]
        exact hres
      · rw [hlen, List.length_set]
      · intro j hj
        rcases hj with hj | hj
        · rw [hout j (Or.inl (by omega)), List.getElem?_set_ne (by omega)]
        · rw [hout j (Or.inr (by omega)), List.getElem?_set_ne (by omega)]
      · intro j h1 h2
        by_cases hji : j = i
        · subst hji
          rw [hout j (Or.inl (by omega))]
          exact List.getElem?_set_eq_of_lt volume hi
        · exact hin j (by omega) (by omega)

theorem cvolume_from_volume_ok (volume channels : Nat) (h : channels ≤ 32) :
    ∃ c, cvolume_from_volume volume channels = Except.ok c ∧
      c.channels = channels ∧ c.values.length = 32 ∧
      (∀ i, i < channels → c.values[i]? = some volume) ∧
      ∀ i, channels ≤ i → c.values[i]? = (List.replicate 32 (0 : Nat))[i]? := by
  obtain ⟨res, hres, hlen, hout, hin⟩ :=
    write_from_ok volume channels (List.replicate 32 0) 0 (by simp; omega)
  refine ⟨{ channels := channels, values := res }, ?_, rfl, ?_, ?_, ?_⟩
  · unfold cvolume_from_volume
    rw [hres]
    rfl
  · rw [hlen]
    simp
  · intro i hi
    exact hin i (Nat.zero_le _) (by omega)
  · intro i hi
    exact hout i (Or.inr (by omega))

/-- C9: the per-channel expansion writes into a fixed 32-slot ctypes
array — for every `channels ≤ 32` it succeeds, setting exactly the
first `channels` slots to the volume and leaving the remaining slots at
their initial `0`; with `channels = 33` the loop's write at index 32 is
out of bounds and raises `IndexError`. -/
theorem C9_thm :
    (∀ volume channels, channels ≤ 32 →
        ∃ c, cvolume_from_volume volume channels = Except.ok c ∧
          c.channels = channels ∧ c.values.length = 32 ∧
          (∀ i, i < channels → c.values[i]? = some volume) ∧
          ∀ i, channels ≤ i → i < 32 → c.values[i]? = some 0) ∧
      cvolume_from_volume 100 33 = Except.error PyErr.indexError := by
  constructor
  · intro volume channels h
    obtain ⟨c, h1, h2, h3, h4, h5⟩ := cvolume_from_volume_ok volume channels h
    refine ⟨c, h1, h2, h3, h4, fun i hi1 hi2 => ?_⟩
    rw [h5 i hi1]
    exact List.getElem?_replicate_of_lt hi2
  · rfl

/-- C9 witness: expansion at volume 85 over 2 channels fills slots 0
and 1 and leaves slot 2 zero; the bound 2 ≤ 32 holds. -/
theorem C9_witness :
    (2 : Nat) ≤ 32 ∧
      ∃ c, cvolume_from_volume 85 2 = Except.ok c ∧
        c.channels = 2 ∧ c.values.length = 32 ∧
        (∀ i, i < 2 → c.values[i]? = some 85) ∧
        ∀ i, 2 ≤ i → i < 32 → c.values[i]? = some 0 :=
  ⟨by decide, C9_thm.1 85 2 (by decide)⟩

/-- C7: `Sink.set_volume` reads the channel count from the reconciled
entity and dispatches, for the sink's own index, a cvolume declaring
exactly that many channels whose first `channels` slots all hold the
requested volume (and optimistically caches the new volume locally). -/
theorem C7_thm (s : Sink) (volume : Nat) (h : s.channels ≤ 32) :
    ∃ c, (Sink.set_volume s volume).2 = Except.ok (s.idx, c) ∧
      c.channels = s.channels ∧ c.values.length = 32 ∧
      (∀ i, i < s.channels → c.values[i]? = some volume) ∧
      (Sink.set_volume s volume).1.volume = volume := by
  obtain ⟨c, h1, h2, h3, h4, _⟩ := cvolume_from_volume_ok volume s.channels h
  refine ⟨c, ?_, h2, h3, h4, rfl⟩
  unfold Sink.set_volume
  rw [h1]
  rfl

/-- A concrete two-channel sink used in the C7 witness. -/
def sinkCh2 : Sink :=
  { idx := 4, volume := 10, channels := 2, mute := false,
    icon_name := some "audio-card", name := "Two channel", sink_name := "sink.two-ch" }

/-- C7 witness: setting volume 85 on the two-channel sink dispatches a
2-channel cvolume whose first two slots are 85. -/
theorem C7_witness :
    sinkCh2.channels ≤ 32 ∧
      ∃ c, (Sink.set_volume sinkCh2 85).2 = Except.ok (sinkCh2.idx, c) ∧
        c.channels = sinkCh2.channels ∧ c.values.length = 32 ∧
        (∀ i, i < sinkCh2.channels → c.values[i]? = some 85) ∧
        (Sink.set_volume sinkCh2 85).1.volume = 85 :=
  ⟨by decide, C7_thm sinkCh2 85 (by decide)⟩

/-- The C8 failing input: an admitted stream (native-protocol driver)
owned by client 7, whose props carry no `application.name`,
`media.name` or icon keys. -/
def c8struct : PaSinkInputStruct :=
  { index := 11, name := "Playback", driver := "protocol-native.c",
    sink := 0, client := 7, volume := { channels := 2, values := [40, 40] }, mute := 0 }

/-- C8: the claimed client fallbacks never happen — for a stream whose
props carry no application/media names and no icon, the `name` property
returns the literal string `None: None` (Python's rendering of the two
`None` fields) and the `icon_name` property returns `None`, regardless
of the owning client; the client lookup that the dead fallback branches
would perform raises `KeyError` once the client is removed. -/
theorem C8_code_bug_thm :
    ((SinkInput.new 11 c8struct []).1).display_name = "None: None" ∧
      ((SinkInput.new 11 c8struct []).1).resolved_icon = none ∧
      get_pa_client emptyMgr 7 = Except.error PyErr.keyError := by
  refine ⟨?_, rfl, rfl⟩
  decide

end Volctl
